import Mathlib

/-!
Shallow embedding of `src/pysg/drawing/container.py` (the pysg container
layout engine): configuration state, validating setters, membership, the
fill-direction collapsing setters of the three container kinds, and the
`draw` passes of the Row and Grid strategies as lists of draw events.

Machine integers are modelled as `Int` (Python ints are unbounded, so no
wrap-around applies).  Python exceptions are modelled as `Except String`;
the raised message string is carried verbatim.  Side-effecting pygame draw
calls are modelled as an event list returned by `draw`.
-/

namespace Pysg

/-- RGB color triple (models `pygame` color values / `DefaultColors`). -/
abbrev Color := Nat × Nat × Nat

/-- Modelled from the spec: `DefaultColors.White._get_color` (the color
module is not under `src/`); white is the usual (255,255,255). -/
def whiteColor : Color := (255, 255, 255)

/-- Modelled from the spec: the ShapeDescriptor `GShape`
(`src/pysg/drawing/shape.py` is not under `src/`): geometric kind, size,
border width, color.  The kind is carried as its name string, because the
shape setter in `container.py` validates `s.shape_type.name` against the
list of `GShapeType` member names — a duck-typed check that an out-of-set
kind can fail. -/
structure GShape where
  shape_type : String
  size : Int
  border_size : Int
  color : Color
deriving DecidableEq, Repr

/-- The member names of the `GShapeType` enum (`[v.name for v in GShapeType]`). -/
def gShapeTypeNames : List String := ["Square", "Ellipse"]

/-- Modelled from the spec: the Drawable capability
(`src/pysg/drawing/drawable.py` is not under `src/`): an identity and a
shape descriptor.  `key` models the CPython runtime identity `id(obj)`
used as the membership dictionary key; `id` is the process-wide counter
identity the labels render. -/
structure GDrawable where
  key : Nat
  id : Nat
  shape : GShape
deriving DecidableEq, Repr

/-- The `GAlign` enum of `container.py`. -/
inductive GAlign where
  | NoAlign | Top | TopLeft | TopRight | Center | Left | Right | Bottom | BottomLeft | BottomRight
deriving DecidableEq, Repr

/-- The `GFillDirection` enum of `container.py`. -/
inductive GFillDirection where
  | TopLeft | TopRight | Left | Right | BottomLeft | BottomRight
deriving DecidableEq, Repr

/-- The `GOverflow` enum of `container.py`. -/
inductive GOverflow where
  | Visible | Hidden
deriving DecidableEq, Repr

/-- The state of a `GContainerBase` instance: the fields assigned by
`__init__`.  Field names follow the Python attribute names. -/
structure GContainerBase where
  _id : Nat
  _objects : List (Nat × GDrawable)
  _size : Int × Int
  _position : Int × Int
  _shape : GShape
  _align : GAlign
  _fill_direction : GFillDirection
  _overflow : GOverflow
  _padding : Int
  _spacing : Int
deriving DecidableEq, Repr

namespace GContainerBase

/-- `GContainerBase._set_shape`: default shape when none is supplied,
otherwise the supplied shape unchanged. -/
def _set_shape (s : Option GShape) : GShape :=
  match s with
  | none => GShape.mk "Square" 10 2 whiteColor
  | some s => s

/-- `GContainerBase.__init__`: plain field assignment — note that `_size`
and `_position` are stored directly, not through the validating setters.
The process-wide id counter value is passed in as `idv`. -/
def mk0 (idv : Nat) (size position : Int × Int) (shape : Option GShape)
    (align : GAlign) (fillDir : GFillDirection) (overflow : GOverflow)
    (padding spacing : Int) : GContainerBase :=
  { _id := idv
    _objects := []
    _size := size
    _position := position
    _shape := _set_shape shape
    _align := align
    _fill_direction := fillDir
    _overflow := overflow
    _padding := padding
    _spacing := spacing }

/-- `GContainerBase.__len__`. -/
def len (c : GContainerBase) : Nat := c._objects.length

/-- The `id` property getter. -/
def id (c : GContainerBase) : Nat := c._id

/-- The `size` property getter — as written in the source it returns
`self._position`, not `self._size`. -/
def size (c : GContainerBase) : Int × Int := c._position

/-- The `size` property setter. -/
def set_size (c : GContainerBase) (s : Int × Int) : Except String GContainerBase :=
  if s.1 ≤ 0 ∨ s.2 ≤ 0 then Except.error "Negative or zero values supplied to size"
  else Except.ok { c with _size := s }

/-- The `position` property getter. -/
def position (c : GContainerBase) : Int × Int := c._position

/-- The `position` property setter: the negativity check runs only under
`GAlign.NoAlign`. -/
def set_position (c : GContainerBase) (p : Int × Int) : Except String GContainerBase :=
  if c._align = GAlign.NoAlign then
    if p.1 < 0 ∨ p.2 < 0 then Except.error "Negative values supplied to position"
    else Except.ok { c with _position := p }
  else Except.ok { c with _position := p }

/-- The `shape` property getter. -/
def shape (c : GContainerBase) : GShape := c._shape

/-- The `shape` property setter: rejects a kind outside the `GShapeType`
names, silently clamps `border_size` below -1 up to -1, then stores. -/
def set_shape (c : GContainerBase) (s : GShape) : Except String GContainerBase :=
  if s.shape_type ∉ gShapeTypeNames then Except.error "Invalid shape type supplied"
  else
    let s2 := if s.border_size < -1 then { s with border_size := -1 } else s
    Except.ok { c with _shape := s2 }

/-- The `align` property getter. -/
def align (c : GContainerBase) : GAlign := c._align

/-- The `align` property setter: the isinstance / enum-membership checks
cannot fail for a value that is a `GAlign`, so the typed model stores. -/
def set_align (c : GContainerBase) (a : GAlign) : Except String GContainerBase :=
  Except.ok { c with _align := a }

/-- The `fill_direction` property getter. -/
def fill_direction (c : GContainerBase) : GFillDirection := c._fill_direction

/-- The `overflow` property getter. -/
def overflow (c : GContainerBase) : GOverflow := c._overflow

/-- The `overflow` property setter (typed model: checks cannot fail). -/
def set_overflow (c : GContainerBase) (o : GOverflow) : Except String GContainerBase :=
  Except.ok { c with _overflow := o }

/-- The `padding` property getter. -/
def padding (c : GContainerBase) : Int := c._padding

/-- The `padding` property setter. -/
def set_padding (c : GContainerBase) (p : Int) : Except String GContainerBase :=
  if p < 0 then Except.error "Negative padding supplied"
  else Except.ok { c with _padding := p }

/-- The `spacing` property getter. -/
def spacing (c : GContainerBase) : Int := c._spacing

/-- The `spacing` property setter. -/
def set_spacing (c : GContainerBase) (s : Int) : Except String GContainerBase :=
  if s < 0 then Except.error "Negative spacing supplied"
  else Except.ok { c with _spacing := s }

/-- `GContainerBase.enter`: reject when the key is already present,
otherwise append (Python dict insertion preserves order). -/
def enter (c : GContainerBase) (obj : GDrawable) : Except String GContainerBase :=
  if c._objects.any fun e => e.1 == obj.key then
    Except.error "Object already in this container"
  else Except.ok { c with _objects := c._objects ++ [(obj.key, obj)] }

/-- `GContainerBase.leave`: reject when the key is absent, otherwise
delete the entry with that key (dict keys are unique, so filtering out the
key models `del`). -/
def leave (c : GContainerBase) (obj : GDrawable) : Except String GContainerBase :=
  if c._objects.any fun e => e.1 == obj.key then
    Except.ok { c with _objects := c._objects.filter fun e => e.1 != obj.key }
  else Except.error "Object not in this container"

/-- `list(self._objects.values())` — the members in insertion order. -/
def obj_entries (c : GContainerBase) : List GDrawable := c._objects.map fun e => e.2

end GContainerBase

/-- Descending insertion of Python's stable `list.sort(reverse=True)` model. -/
def insertDesc (a : Int) : List Int → List Int
  | [] => [a]
  | b :: t => if b < a then a :: b :: t else b :: insertDesc a t

/-- Model of Python `list.sort(reverse=True)`: a stable descending sort. -/
def sortDesc : List Int → List Int
  | [] => []
  | a :: t => insertDesc a (sortDesc t)

/-- The `biggest_size` computation shared by the three draw passes: map the
members to their shape sizes, sort descending, take the first element. -/
def biggestSize (objs : List GDrawable) : Int :=
  (sortDesc (objs.map fun o => o.shape.size)).headD 0

/-- One pygame draw call issued by a `draw` pass.  `text` records the blit
of a member's identity label; its position components are the exact values
`center - biggest_size / 4` scaled by 4 (quarter-pixel units), so the
Python float is represented exactly in `Int`. -/
inductive DrawEvent where
  | rect (x y w h : Int) (color : Color) (border : Int)
  | ellipse (x y w h : Int) (color : Color) (border : Int)
  | text (idv : Nat) (px4 py4 : Int)
deriving DecidableEq, Repr

/-- The identity labels whose draw calls a `draw` pass issued, in order:
every non-culled member blits exactly one label. -/
def drawnIds (evs : List DrawEvent) : List Nat :=
  evs.filterMap fun e =>
    match e with
    | DrawEvent.text i _ _ => some i
    | _ => none

/-- The frame draw call every `draw` pass issues first: the container's
own rectangle or ellipse in white with the container shape's border size. -/
def frameEvent (c : GContainerBase) : DrawEvent :=
  if c._shape.shape_type == "Square" then
    DrawEvent.rect c._position.1 c._position.2 c._size.1 c._size.2 whiteColor c._shape.border_size
  else
    DrawEvent.ellipse c._position.1 c._position.2 c._size.1 c._size.2 whiteColor c._shape.border_size

/-- The shape draw call plus label blit for one member drawn at `(xl, yl)`:
`pygame.Rect(x_l, y_l, size, size)` in the member's own color, filled
(pygame's default width 0), then the label at
`f_rect.center - biggest_size / 4` on both axes (quarter-pixel units;
pygame's `Rect.center` uses integer division by 2). -/
def itemEvents (o : GDrawable) (xl yl biggest : Int) : List DrawEvent :=
  let size := o.shape.size
  let shapeEv :=
    if o.shape.shape_type == "Square" then DrawEvent.rect xl yl size size o.shape.color 0
    else DrawEvent.ellipse xl yl size size o.shape.color 0
  let cx := xl + size / 2
  let cy := yl + size / 2
  [shapeEv, DrawEvent.text o.id (4 * cx - biggest) (4 * cy - biggest)]

namespace GContainerRow

/-- `GContainerRow.fill_direction` setter: collapse `{TopLeft, BottomLeft}`
to `Left` and `{TopRight, BottomRight}` to `Right`; anything else passes
through unchanged. -/
def set_fill_direction (c : GContainerBase) (f : GFillDirection) : GContainerBase :=
  let n_f :=
    if f = GFillDirection.TopLeft ∨ f = GFillDirection.BottomLeft then GFillDirection.Left
    else if f = GFillDirection.TopRight ∨ f = GFillDirection.BottomRight then GFillDirection.Right
    else f
  { c with _fill_direction := n_f }

/-- `GContainerRow.__init__`: calls the base constructor (which receives
the default fill direction `TopLeft` and the default spacing 5 — the Row
constructor passes neither), then assigns `fill_direction` through the
collapsing setter. -/
def mk0 (idv : Nat) (size position : Int × Int) (shape : Option GShape)
    (align : GAlign) (fillDir : GFillDirection) (overflow : GOverflow)
    (padding : Int) : GContainerBase :=
  set_fill_direction
    (GContainerBase.mk0 idv size position shape align GFillDirection.TopLeft overflow padding 5)
    fillDir

/-- The `x_l` slot coordinate of `GContainerRow.draw` for the member at
index `i`: advance from the left edge under `Left`, otherwise anchor from
the far edge advancing backward. -/
def x_l (c : GContainerBase) (biggest : Int) (i : Nat) : Int :=
  if c._fill_direction = GFillDirection.Left then
    c._position.1 + (i : Int) * biggest + (i : Int) * c._spacing + c._padding
  else
    (c._position.1 + c._size.1) - (i : Int) * biggest - (i : Int) * c._spacing
      - c._padding - biggest

/-- The overflow culling test of `GContainerRow.draw` (only consulted when
overflow is `Hidden`): under `Right` anchoring cull a slot starting before
the near edge, otherwise cull a slot extending past `x + self._size[0]`. -/
def rowCulled (c : GContainerBase) (biggest xl : Int) : Bool :=
  if c._fill_direction = GFillDirection.Right then decide (xl < c._position.1)
  else decide (xl + biggest > c._position.1 + c._size.1)

/-- `GContainerRow.draw` as the list of draw calls it issues: the frame,
then per member in insertion order its shape and label unless culled. -/
def draw (c : GContainerBase) : List DrawEvent :=
  let frame := [frameEvent c]
  if c._objects.length == 0 then frame
  else
    let entries := c.obj_entries
    let biggest := biggestSize entries
    frame ++ entries.enum.flatMap fun p =>
      let xl := x_l c biggest p.1
      let yl := c._position.2 + c._padding
      if c._overflow == GOverflow.Hidden && rowCulled c biggest xl then []
      else itemEvents p.2 xl yl biggest

end GContainerRow

namespace GContainerColumn

/-- `GContainerColumn.fill_direction` setter: same collapse rule as Row. -/
def set_fill_direction (c : GContainerBase) (f : GFillDirection) : GContainerBase :=
  let n_f :=
    if f = GFillDirection.TopLeft ∨ f = GFillDirection.BottomLeft then GFillDirection.Left
    else if f = GFillDirection.TopRight ∨ f = GFillDirection.BottomRight then GFillDirection.Right
    else f
  { c with _fill_direction := n_f }

/-- `GContainerColumn.__init__`: as for Row. -/
def mk0 (idv : Nat) (size position : Int × Int) (shape : Option GShape)
    (align : GAlign) (fillDir : GFillDirection) (overflow : GOverflow)
    (padding : Int) : GContainerBase :=
  set_fill_direction
    (GContainerBase.mk0 idv size position shape align GFillDirection.TopLeft overflow padding 5)
    fillDir

/-- The `y_l` slot coordinate of `GContainerColumn.draw` for index `i`. -/
def y_l (c : GContainerBase) (biggest : Int) (i : Nat) : Int :=
  if c._fill_direction = GFillDirection.Left then
    c._position.2 + (i : Int) * biggest + (i : Int) * c._spacing + c._padding
  else
    (c._position.2 + c._size.2) - (i : Int) * biggest - (i : Int) * c._spacing
      - c._padding - biggest

/-- The overflow culling test of `GContainerColumn.draw`. -/
def colCulled (c : GContainerBase) (biggest yl : Int) : Bool :=
  if c._fill_direction = GFillDirection.Right then decide (yl < c._position.2)
  else decide (yl + biggest > c._position.2 + c._size.2)

/-- `GContainerColumn.draw` as the list of draw calls it issues. -/
def draw (c : GContainerBase) : List DrawEvent :=
  let frame := [frameEvent c]
  if c._objects.length == 0 then frame
  else
    let entries := c.obj_entries
    let biggest := biggestSize entries
    frame ++ entries.enum.flatMap fun p =>
      let xl := c._position.1 + c._padding
      let yl := y_l c biggest p.1
      if c._overflow == GOverflow.Hidden && colCulled c biggest yl then []
      else itemEvents p.2 xl yl biggest

end GContainerColumn

/-- Recursion core of `array_chunks`: peel off groups of `n` while fuel
lasts.  With fuel at least the list length and `0 < n` the fuel never runs
out; the explicit fuel keeps the recursion structural. -/
def array_chunks_go {α : Type} : Nat → List α → Nat → List (List α)
  | _, [], _ => []
  | 0, _ :: _, _ => []
  | fuel + 1, a :: t, n => (a :: t).take n :: array_chunks_go fuel ((a :: t).drop n) n

/-- Modelled from the spec: the chunking utility `array_chunks`
(`src/pysg/util` is not under `src/`), described as splitting a sequence
into fixed-size groups in order, the last group possibly short; a width too
small to fit one item (group size 0) yields a degenerate empty chunk set. -/
def array_chunks {α : Type} (l : List α) (n : Nat) : List (List α) :=
  if n = 0 then [] else array_chunks_go l.length l n

namespace GcontainerGrid

/-- `GcontainerGrid.fill_direction` setter: collapse `Left` to `TopLeft`
and `Right` to `TopRight`; anything else passes through unchanged. -/
def set_fill_direction (c : GContainerBase) (f : GFillDirection) : GContainerBase :=
  let n_f :=
    if f = GFillDirection.Left then GFillDirection.TopLeft
    else if f = GFillDirection.Right then GFillDirection.TopRight
    else f
  { c with _fill_direction := n_f }

/-- `GcontainerGrid.__init__`: as for Row, with the Grid collapsing setter. -/
def mk0 (idv : Nat) (size position : Int × Int) (shape : Option GShape)
    (align : GAlign) (fillDir : GFillDirection) (overflow : GOverflow)
    (padding : Int) : GContainerBase :=
  set_fill_direction
    (GContainerBase.mk0 idv size position shape align GFillDirection.TopLeft overflow padding 5)
    fillDir

/-- `max_grid_w = math.floor(width / (biggest_size + self._spacing))`:
Python true division followed by `math.floor` is flooring division. -/
def max_grid_w (c : GContainerBase) (biggest : Int) : Int :=
  Int.fdiv c._size.1 (biggest + c._spacing)

/-- The chunk width `max_grid_w` computed by `GcontainerGrid.draw` from the
current members, as the natural number handed to the chunking utility. -/
def cols (c : GContainerBase) : Nat :=
  (max_grid_w c (biggestSize c.obj_entries)).toNat

/-- `obj_entries_chunked = list(array_chunks(obj_entries, max_grid_w))`. -/
def chunks (c : GContainerBase) : List (List GDrawable) :=
  array_chunks c.obj_entries (cols c)

/-- The per-cell coordinates of `GcontainerGrid.draw` for chunk row `j`,
column `i`: the four corner directions anchor each axis from its near or
far edge; the uncovered directions leave the initialisation `(0, 0)`. -/
def cell_pos (c : GContainerBase) (biggest : Int) (j i : Nat) : Int × Int :=
  let x := c._position.1
  let y := c._position.2
  let width := c._size.1
  let height := c._size.2
  if c._fill_direction = GFillDirection.TopLeft then
    (x + (i : Int) * biggest + (i : Int) * c._spacing + c._padding,
     y + (j : Int) * biggest + (j : Int) * c._spacing + c._padding)
  else if c._fill_direction = GFillDirection.TopRight then
    ((x + width) - (i : Int) * biggest - (i : Int) * c._spacing - c._padding - biggest,
     y + (j : Int) * biggest + (j : Int) * c._spacing + c._padding)
  else if c._fill_direction = GFillDirection.BottomLeft then
    (x + (i : Int) * biggest + (i : Int) * c._spacing + c._padding,
     (y + height) - (j : Int) * biggest - (j : Int) * c._spacing - c._padding - biggest)
  else if c._fill_direction = GFillDirection.BottomRight then
    ((x + width) - (i : Int) * biggest - (i : Int) * c._spacing - c._padding - biggest,
     (y + height) - (j : Int) * biggest - (j : Int) * c._spacing - c._padding - biggest)
  else (0, 0)

/-- The overflow culling test of `GcontainerGrid.draw` (only consulted when
overflow is `Hidden`).  As in the source, the horizontal far-edge check
compares against `x + self._size[0]`, but the vertical far-edge check of
`TopLeft` and `TopRight` compares against `y + self.size[1]` — through the
`size` property getter, which returns `self._position`. -/
def cellCulled (c : GContainerBase) (biggest xl yl : Int) : Bool :=
  let x := c._position.1
  let y := c._position.2
  if c._fill_direction = GFillDirection.TopLeft then
    decide (xl + biggest > x + c._size.1) || decide (yl + biggest > y + (GContainerBase.size c).2)
  else if c._fill_direction = GFillDirection.TopRight then
    decide (xl < x) || decide (yl + biggest > y + (GContainerBase.size c).2)
  else if c._fill_direction = GFillDirection.BottomLeft then
    decide (xl + biggest > x + c._size.1) || decide (yl < y)
  else if c._fill_direction = GFillDirection.BottomRight then
    decide (xl < x) || decide (yl < y)
  else false

/-- `GcontainerGrid.draw` as the list of draw calls it issues: the frame,
then the chunked members row by row, each cell's shape and label unless
culled. -/
def draw (c : GContainerBase) : List DrawEvent :=
  let frame := [frameEvent c]
  if c._objects.length == 0 then frame
  else
    let entries := c.obj_entries
    let biggest := biggestSize entries
    frame ++ (chunks c).enum.flatMap fun q =>
      q.2.enum.flatMap fun p =>
        let pos := cell_pos c biggest q.1 p.1
        if c._overflow == GOverflow.Hidden && cellCulled c biggest pos.1 pos.2 then []
        else itemEvents p.2 pos.1 pos.2 biggest

end GcontainerGrid

/-! Concrete instances used by the scenario theorems and witnesses. -/

/-- A red 30-unit filled square shape. -/
def sq30 : GShape := GShape.mk "Square" 30 0 (255, 0, 0)

/-- Five drawables of shape size 30, identities 1..5, distinct runtime keys. -/
def fiveSquares : List GDrawable :=
  [⟨1, 1, sq30⟩, ⟨2, 2, sq30⟩, ⟨3, 3, sq30⟩, ⟨4, 4, sq30⟩, ⟨5, 5, sq30⟩]

/-- An empty container with valid configuration (size (100,50), position
(0,0), default shape, NoAlign). -/
def cEmpty : GContainerBase :=
  GContainerBase.mk0 0 (100, 50) (0, 0) none GAlign.NoAlign GFillDirection.TopLeft
    GOverflow.Visible 5 5

/-- An empty container whose alignment is `Center` (not `NoAlign`). -/
def cCenter : GContainerBase :=
  GContainerBase.mk0 0 (100, 50) (0, 0) none GAlign.Center GFillDirection.TopLeft
    GOverflow.Visible 5 5

/-- A drawable with runtime key 11 and identity 3. -/
def d0 : GDrawable := ⟨11, 3, sq30⟩

/-- A shape whose kind name is outside the `GShapeType` member names. -/
def triShape : GShape := GShape.mk "Triangle" 10 2 (0, 0, 0)

/-- A square shape with `border_size` below -1. -/
def negBorderShape : GShape := GShape.mk "Square" 10 (-5) (0, 0, 0)

/-- A container constructed with size (100,50) and position (7,9). -/
def c1base : GContainerBase :=
  GContainerBase.mk0 0 (100, 50) (7, 9) none GAlign.NoAlign GFillDirection.TopLeft
    GOverflow.Visible 5 5

/-- The Row scenario of §8: size (100,50) at (0,0), padding 0, spacing
mutated to 0 (the Row constructor does not take spacing), fill direction
Left, overflow Hidden, five size-30 squares entered in insertion order. -/
def c4row : GContainerBase :=
  let c0 := GContainerRow.mk0 0 (100, 50) (0, 0) none GAlign.NoAlign GFillDirection.Left
    GOverflow.Hidden 0
  let c1 := (c0.set_spacing 0).toOption.getD c0
  fiveSquares.foldl (fun c o => (c.enter o).toOption.getD c) c1

/-- Grid scenario for the vertical cull check: size (100,100) at (0,0),
padding 0 (spacing keeps the constructor default 5), fill TopLeft,
overflow Hidden, one size-30 square member that fits the container. -/
def c5grid : GContainerBase :=
  let c0 := GcontainerGrid.mk0 0 (100, 100) (0, 0) none GAlign.NoAlign GFillDirection.TopLeft
    GOverflow.Hidden 0
  (c0.enter ⟨1, 1, sq30⟩).toOption.getD c0

/-- The Grid chunking scenario of §8: width 100, spacing mutated to 10,
five size-30 square members, overflow Visible. -/
def c6grid : GContainerBase :=
  let c0 := GcontainerGrid.mk0 0 (100, 100) (0, 0) none GAlign.NoAlign GFillDirection.TopLeft
    GOverflow.Visible 0
  let c1 := (c0.set_spacing 10).toOption.getD c0
  fiveSquares.foldl (fun c o => (c.enter o).toOption.getD c) c1

/-! Helper lemmas about the chunking utility. -/

theorem array_chunks_go_nil {α : Type} (fuel n : Nat) :
    array_chunks_go fuel ([] : List α) n = [] := by
  cases fuel <;> rfl

theorem array_chunks_go_flatten {α : Type} (n : Nat) (hn : 0 < n) :
    ∀ (fuel : Nat) (l : List α), l.length ≤ fuel →
      (array_chunks_go fuel l n).flatten = l := by
  intro fuel
  induction fuel with
  | zero =>
    intro l hl
    cases l with
    | nil => rfl
    | cons a t => simp at hl
  | succ fuel ih =>
    intro l hl
    cases l with
    | nil => rfl
    | cons a t =>
      have hd : ((a :: t).drop n).length ≤ fuel := by
        simp only [List.length_drop, List.length_cons]
        simp only [List.length_cons] at hl
        omega
      show ((a :: t).take n :: array_chunks_go fuel ((a :: t).drop n) n).flatten = a :: t
      rw [List.flatten_cons, ih _ hd, List.take_append_drop]

theorem array_chunks_go_mem_length {α : Type} (n : Nat) (hn : 0 < n) :
    ∀ (fuel : Nat) (l : List α), l.length ≤ fuel →
      ∀ ch ∈ array_chunks_go fuel l n, 0 < ch.length ∧ ch.length ≤ n := by
  intro fuel
  induction fuel with
  | zero =>
    intro l hl ch hch
    cases l with
    | nil => simp [array_chunks_go] at hch
    | cons a t => simp at hl
  | succ fuel ih =>
    intro l hl ch hch
    cases l with
    | nil => simp [array_chunks_go] at hch
    | cons a t =>
      have heq : array_chunks_go (fuel + 1) (a :: t) n
          = (a :: t).take n :: array_chunks_go fuel ((a :: t).drop n) n := rfl
      rw [heq, List.mem_cons] at hch
      cases hch with
      | inl he =>
        subst he
        constructor
        · simp only [List.length_take, List.length_cons]
          omega
        · simp only [List.length_take]
          omega
      | inr hm =>
        have hd : ((a :: t).drop n).length ≤ fuel := by
          simp only [List.length_drop, List.length_cons]
          simp only [List.length_cons] at hl
          omega
        exact ih _ hd ch hm

theorem array_chunks_go_getD {α : Type} (n : Nat) (hn : 0 < n) :
    ∀ (fuel : Nat) (l : List α), l.length ≤ fuel →
      ∀ i, i + 1 < (array_chunks_go fuel l n).length →
        ((array_chunks_go fuel l n).getD i []).length = n := by
  intro fuel
  induction fuel with
  | zero =>
    intro l hl i hi
    cases l with
    | nil => simp [array_chunks_go] at hi
    | cons a t => simp at hl
  | succ fuel ih =>
    intro l hl i hi
    cases l with
    | nil => simp [array_chunks_go] at hi
    | cons a t =>
      have heq : array_chunks_go (fuel + 1) (a :: t) n
          = (a :: t).take n :: array_chunks_go fuel ((a :: t).drop n) n := rfl
      rw [heq] at hi ⊢
      have hd : ((a :: t).drop n).length ≤ fuel := by
        simp only [List.length_drop, List.length_cons]
        simp only [List.length_cons] at hl
        omega
      cases i with
      | zero =>
        simp only [List.length_cons] at hi
        have hne : array_chunks_go fuel ((a :: t).drop n) n ≠ [] := by
          intro he
          rw [he] at hi
          simp at hi
        have hdne : (a :: t).drop n ≠ [] := by
          intro he
          rw [he, array_chunks_go_nil] at hne
          exact hne rfl
        have hlen : n < (a :: t).length := by
          by_contra hc
          push_neg at hc
          exact hdne (List.drop_eq_nil_of_le hc)
        simp only [List.getD_cons_zero, List.length_take]
        omega
      | succ i =>
        simp only [List.getD_cons_succ]
        apply ih _ hd
        simp only [List.length_cons] at hi
        omega

theorem array_chunks_flatten {α : Type} (l : List α) (n : Nat) (hn : 0 < n) :
    (array_chunks l n).flatten = l := by
  unfold array_chunks
  rw [if_neg (Nat.pos_iff_ne_zero.mp hn)]
  exact array_chunks_go_flatten n hn l.length l le_rfl

theorem array_chunks_mem_length {α : Type} (l : List α) (n : Nat) (hn : 0 < n) :
    ∀ ch ∈ array_chunks l n, 0 < ch.length ∧ ch.length ≤ n := by
  unfold array_chunks
  rw [if_neg (Nat.pos_iff_ne_zero.mp hn)]
  exact array_chunks_go_mem_length n hn l.length l le_rfl

theorem array_chunks_getD {α : Type} (l : List α) (n : Nat) (hn : 0 < n) :
    ∀ i, i + 1 < (array_chunks l n).length →
      ((array_chunks l n).getD i []).length = n := by
  unfold array_chunks
  rw [if_neg (Nat.pos_iff_ne_zero.mp hn)]
  exact array_chunks_go_getD n hn l.length l le_rfl

/-! The claims. -/

/-- C1: the claim says that reading back each configuration field returns
the stored value of that field — in particular that `size` returns the
width/height pair.  The code violates it: the `size` property getter
returns `self._position`.  Evaluating the code at the failing input: a
container constructed with size (100,50) and position (7,9) stores
`_size = (100,50)`, yet its `size` getter returns (7,9) — the position —
while the other getters do return their own stored fields. -/
theorem size_getter_returns_position :
    GContainerBase.size c1base = (7, 9) ∧
    c1base._size = (100, 50) ∧
    GContainerBase.position c1base = (7, 9) ∧
    GContainerBase.padding c1base = 5 ∧
    GContainerBase.spacing c1base = 5 ∧
    GContainerBase.align c1base = GAlign.NoAlign ∧
    GContainerBase.overflow c1base = GOverflow.Visible ∧
    GContainerBase.fill_direction c1base = GFillDirection.TopLeft := by
  decide

/-- C2, counterexample to the claim as stated: constructing a container
with size (0, 10) does not raise — `__init__` stores the pair directly,
bypassing the validating setter. -/
theorem construct_invalid_size_no_error :
    (GContainerBase.mk0 0 (0, 10) (0, 0) none GAlign.NoAlign GFillDirection.TopLeft
      GOverflow.Visible 5 5)._size = (0, 10) :=
  rfl

/-- C2, amended: mutating size through the setter to a pair with either
dimension ≤ 0 raises InvalidValue (so the previously stored size is left
unchanged — the error is returned before any update), while construction
stores the supplied pair without validation. -/
theorem size_mutation_rejects (c : GContainerBase) (s : Int × Int)
    (h : s.1 ≤ 0 ∨ s.2 ≤ 0) (idv : Nat) (p : Int × Int) :
    c.set_size s = Except.error "Negative or zero values supplied to size" ∧
    (GContainerBase.mk0 idv s p none GAlign.NoAlign GFillDirection.TopLeft
      GOverflow.Visible 5 5)._size = s := by
  refine ⟨?_, rfl⟩
  simp [GContainerBase.set_size, h]

/-- C2 witness: with the prior valid size (100,50) of `cEmpty`, mutating
to (-5, 5) errors, and constructing with (-5, 5) stores it. -/
theorem size_mutation_rejects_witness :
    (((-5 : Int), (5 : Int)).1 ≤ 0 ∨ ((-5 : Int), (5 : Int)).2 ≤ 0) ∧
    cEmpty.set_size (-5, 5) = Except.error "Negative or zero values supplied to size" ∧
    (GContainerBase.mk0 7 (-5, 5) (0, 0) none GAlign.NoAlign GFillDirection.TopLeft
      GOverflow.Visible 5 5)._size = (-5, 5) :=
  ⟨by decide,
   (size_mutation_rejects cEmpty (-5, 5) (by decide) 7 (0, 0)).1,
   (size_mutation_rejects cEmpty (-5, 5) (by decide) 7 (0, 0)).2⟩

/-- C3: the fill-direction collapse law.  For Row and Column the setter
collapses TopLeft/BottomLeft to Left and TopRight/BottomRight to Right,
passing Left and Right through; for Grid it collapses Left to TopLeft and
Right to TopRight, passing the four corner values through. -/
theorem fill_direction_collapse_law (c : GContainerBase) :
    ((GContainerRow.set_fill_direction c GFillDirection.TopLeft)._fill_direction
        = GFillDirection.Left) ∧
    ((GContainerRow.set_fill_direction c GFillDirection.BottomLeft)._fill_direction
        = GFillDirection.Left) ∧
    ((GContainerRow.set_fill_direction c GFillDirection.TopRight)._fill_direction
        = GFillDirection.Right) ∧
    ((GContainerRow.set_fill_direction c GFillDirection.BottomRight)._fill_direction
        = GFillDirection.Right) ∧
    ((GContainerRow.set_fill_direction c GFillDirection.Left)._fill_direction
        = GFillDirection.Left) ∧
    ((GContainerRow.set_fill_direction c GFillDirection.Right)._fill_direction
        = GFillDirection.Right) ∧
    ((GContainerColumn.set_fill_direction c GFillDirection.TopLeft)._fill_direction
        = GFillDirection.Left) ∧
    ((GContainerColumn.set_fill_direction c GFillDirection.BottomLeft)._fill_direction
        = GFillDirection.Left) ∧
    ((GContainerColumn.set_fill_direction c GFillDirection.TopRight)._fill_direction
        = GFillDirection.Right) ∧
    ((GContainerColumn.set_fill_direction c GFillDirection.BottomRight)._fill_direction
        = GFillDirection.Right) ∧
    ((GContainerColumn.set_fill_direction c GFillDirection.Left)._fill_direction
        = GFillDirection.Left) ∧
    ((GContainerColumn.set_fill_direction c GFillDirection.Right)._fill_direction
        = GFillDirection.Right) ∧
    ((GcontainerGrid.set_fill_direction c GFillDirection.Left)._fill_direction
        = GFillDirection.TopLeft) ∧
    ((GcontainerGrid.set_fill_direction c GFillDirection.Right)._fill_direction
        = GFillDirection.TopRight) ∧
    ((GcontainerGrid.set_fill_direction c GFillDirection.TopLeft)._fill_direction
        = GFillDirection.TopLeft) ∧
    ((GcontainerGrid.set_fill_direction c GFillDirection.TopRight)._fill_direction
        = GFillDirection.TopRight) ∧
    ((GcontainerGrid.set_fill_direction c GFillDirection.BottomLeft)._fill_direction
        = GFillDirection.BottomLeft) ∧
    ((GcontainerGrid.set_fill_direction c GFillDirection.BottomRight)._fill_direction
        = GFillDirection.BottomRight) :=
  ⟨rfl, rfl, rfl, rfl, rfl, rfl, rfl, rfl, rfl, rfl, rfl, rfl, rfl, rfl, rfl, rfl, rfl, rfl⟩

/-- C4: the Row overflow-culling scenario.  For the Row container of size
(100,50) at (0,0), padding 0, spacing 0, fill Left, overflow Hidden, with
five size-30 squares: the slot x-coordinates for indices 0..4 are
0, 30, 60, 90, 120; only the members at indices 0, 1, 2 (identities
1, 2, 3) issue draw calls; and the culled members stay in the membership,
which still lists all five identities in insertion order. -/
theorem row_overflow_cull_scenario :
    biggestSize c4row.obj_entries = 30 ∧
    ((List.range 5).map fun i => GContainerRow.x_l c4row 30 i) = [0, 30, 60, 90, 120] ∧
    drawnIds (GContainerRow.draw c4row) = [1, 2, 3] ∧
    GContainerRow.rowCulled c4row 30 (GContainerRow.x_l c4row 30 3) = true ∧
    GContainerRow.rowCulled c4row 30 (GContainerRow.x_l c4row 30 4) = true ∧
    c4row.obj_entries.map GDrawable.id = [1, 2, 3, 4, 5] := by
  decide

/-- C5: the claim states the intended Grid culling rule — in particular
that under TopLeft the vertical condition is
`y_cell + biggest_size > y + container_height`.  The code instead compares
against `y + self.size[1]`, and the `size` getter returns `self._position`.
Evaluating at the failing input: in `c5grid` (size (100,100) at (0,0),
overflow Hidden, TopLeft) the single size-30 member sits at cell (0,0) and
fits both axes (30 ≤ 100), yet the code culls it — the vertical check
compares 30 against `0 + position.y = 0` — so no member draw call is
issued. -/
theorem grid_vertical_cull_reads_position :
    GContainerBase.size c5grid = (0, 0) ∧
    c5grid._size = (100, 100) ∧
    GcontainerGrid.cell_pos c5grid 30 0 0 = (0, 0) ∧
    ((0 : Int) + 30 ≤ 0 + 100) ∧
    GcontainerGrid.cellCulled c5grid 30 0 0 = true ∧
    drawnIds (GcontainerGrid.draw c5grid) = [] ∧
    c5grid.obj_entries.map GDrawable.id = [1] := by
  decide

/-- C6: the Grid chunking law.  The column count handed to the chunking
utility is `floor(width / (biggest_size + spacing))`; given at least one
column, the chunks concatenate back to the members in insertion order,
every chunk is nonempty with at most `columns` items, and every chunk
except possibly the last has exactly `columns` items. -/
theorem grid_chunking_law (c : GContainerBase) (h : 0 < GcontainerGrid.cols c) :
    GcontainerGrid.cols c
        = (Int.fdiv c._size.1 (biggestSize c.obj_entries + c._spacing)).toNat ∧
    (GcontainerGrid.chunks c).flatten = c.obj_entries ∧
    (∀ ch ∈ GcontainerGrid.chunks c, 0 < ch.length ∧ ch.length ≤ GcontainerGrid.cols c) ∧
    (∀ i, i + 1 < (GcontainerGrid.chunks c).length →
      ((GcontainerGrid.chunks c).getD i []).length = GcontainerGrid.cols c) :=
  ⟨rfl,
   array_chunks_flatten _ _ h,
   array_chunks_mem_length _ _ h,
   array_chunks_getD _ _ h⟩

/-- C6 witness: the concrete scenario — width 100, biggest size 30,
spacing 10 give 2 columns and the five members chunk as [2,2,1]. -/
theorem grid_chunking_law_witness :
    0 < GcontainerGrid.cols c6grid ∧
    GcontainerGrid.cols c6grid = 2 ∧
    (GcontainerGrid.chunks c6grid).map List.length = [2, 2, 1] ∧
    (GcontainerGrid.cols c6grid
        = (Int.fdiv c6grid._size.1 (biggestSize c6grid.obj_entries + c6grid._spacing)).toNat ∧
     (GcontainerGrid.chunks c6grid).flatten = c6grid.obj_entries ∧
     (∀ ch ∈ GcontainerGrid.chunks c6grid,
        0 < ch.length ∧ ch.length ≤ GcontainerGrid.cols c6grid) ∧
     (∀ i, i + 1 < (GcontainerGrid.chunks c6grid).length →
       ((GcontainerGrid.chunks c6grid).getD i []).length = GcontainerGrid.cols c6grid)) :=
  ⟨by decide, by decide, by decide, grid_chunking_law c6grid (by decide)⟩

/-- C7: the membership set law.  When `d`'s key is absent from `c`:
`enter d` succeeds and a following `leave d` returns exactly the prior
container; a second `enter d` on the result fails with the
duplicate-membership error (returning no new state, so membership is
unchanged); and `leave d` on `c` itself fails with the missing-membership
error. -/
theorem membership_set_law (c : GContainerBase) (d : GDrawable)
    (h : (c._objects.all fun e => e.1 != d.key) = true) :
    (∃ c2, c.enter d = Except.ok c2 ∧ c2.leave d = Except.ok c) ∧
    (∀ c2, c.enter d = Except.ok c2 →
      c2.enter d = Except.error "Object already in this container") ∧
    c.leave d = Except.error "Object not in this container" := by
  have hall : ∀ e ∈ c._objects, (e.1 != d.key) = true := List.all_eq_true.mp h
  have hany : (c._objects.any fun e => e.1 == d.key) = false := by
    rw [List.any_eq_false]
    intro e he
    have hne := hall e he
    simp only [bne_iff_ne, ne_eq] at hne
    simp [hne]
  have henter : c.enter d = Except.ok { c with _objects := c._objects ++ [(d.key, d)] } := by
    simp [GContainerBase.enter, hany]
  refine ⟨⟨{ c with _objects := c._objects ++ [(d.key, d)] }, henter, ?_⟩, ?_, ?_⟩
  · have hmem : ((c._objects ++ [(d.key, d)]).any fun e => e.1 == d.key) = true := by
      simp [List.any_append]
    have hfilter : ((c._objects ++ [(d.key, d)]).filter fun e => e.1 != d.key)
        = c._objects := by
      rw [List.filter_append, List.filter_eq_self.mpr hall]
      simp
    simp [GContainerBase.leave, hmem, hfilter]
  · intro c2 hc2
    rw [henter] at hc2
    injection hc2 with hc2
    subst hc2
    simp [GContainerBase.enter, List.any_append]
  · simp [GContainerBase.leave, hany]

/-- C7 witness: on the empty container `cEmpty` with drawable `d0`. -/
theorem membership_set_law_witness :
    (cEmpty._objects.all fun e => e.1 != d0.key) = true ∧
    ((∃ c2, cEmpty.enter d0 = Except.ok c2 ∧ c2.leave d0 = Except.ok cEmpty) ∧
     (∀ c2, cEmpty.enter d0 = Except.ok c2 →
       c2.enter d0 = Except.error "Object already in this container") ∧
     cEmpty.leave d0 = Except.error "Object not in this container") :=
  ⟨by decide, membership_set_law cEmpty d0 (by decide)⟩

/-- C8: mutating position to a pair with a negative component errors
exactly when the alignment is NoAlign; under any other alignment the same
pair is accepted and stored. -/
theorem position_negative_iff_noalign (c : GContainerBase) (p : Int × Int)
    (h : p.1 < 0 ∨ p.2 < 0) :
    (c._align = GAlign.NoAlign →
      c.set_position p = Except.error "Negative values supplied to position") ∧
    (c._align ≠ GAlign.NoAlign →
      c.set_position p = Except.ok { c with _position := p }) := by
  constructor
  · intro ha
    simp [GContainerBase.set_position, ha, h]
  · intro ha
    simp [GContainerBase.set_position, ha]

/-- C8 witness: position (-3, 4) is rejected under NoAlign (`cEmpty`) and
accepted and stored under Center (`cCenter`). -/
theorem position_negative_iff_noalign_witness :
    (((-3 : Int), (4 : Int)).1 < 0 ∨ ((-3 : Int), (4 : Int)).2 < 0) ∧
    cEmpty.set_position (-3, 4) = Except.error "Negative values supplied to position" ∧
    cCenter.set_position (-3, 4) = Except.ok { cCenter with _position := (-3, 4) } :=
  ⟨by decide,
   (position_negative_iff_noalign cEmpty (-3, 4) (by decide)).1 (by decide),
   (position_negative_iff_noalign cCenter (-3, 4) (by decide)).2 (by decide)⟩

/-- C9: the shape setter rejects a shape whose kind name is outside the
known set (returning the error, so the stored shape is unchanged), and for
a known kind it accepts a `border_size` below -1, silently clamping it to
-1; a border size of -1 or above is stored as supplied. -/
theorem shape_setter_validates (c : GContainerBase) (s : GShape) :
    (s.shape_type ∉ gShapeTypeNames →
      c.set_shape s = Except.error "Invalid shape type supplied") ∧
    (s.shape_type ∈ gShapeTypeNames → s.border_size < -1 →
      c.set_shape s = Except.ok { c with _shape := { s with border_size := -1 } }) ∧
    (s.shape_type ∈ gShapeTypeNames → ¬ s.border_size < -1 →
      c.set_shape s = Except.ok { c with _shape := s }) := by
  refine ⟨fun h => ?_, fun h1 h2 => ?_, fun h1 h2 => ?_⟩ <;>
    simp [GContainerBase.set_shape, *]

/-- C9 witness: assigning the "Triangle" shape errors; assigning a square
with border size -5 succeeds with the border clamped to -1. -/
theorem shape_setter_validates_witness :
    triShape.shape_type ∉ gShapeTypeNames ∧
    cEmpty.set_shape triShape = Except.error "Invalid shape type supplied" ∧
    negBorderShape.border_size < -1 ∧
    cEmpty.set_shape negBorderShape
        = Except.ok { cEmpty with _shape := { negBorderShape with border_size := -1 } } :=
  ⟨by decide,
   (shape_setter_validates cEmpty triShape).1 (by decide),
   by decide,
   (shape_setter_validates cEmpty negBorderShape).2.1 (by decide) (by decide)⟩

/-- C10: the constructor stores an explicitly supplied shape exactly as
given — for every shape, including one with an unknown kind or a border
size below -1, no validation or clamping happens on this path — and
substitutes the default white 10-unit square with border 2 only when no
shape is supplied. -/
theorem constructor_stores_shape_raw (idv : Nat) (size p : Int × Int) (a : GAlign)
    (f : GFillDirection) (ov : GOverflow) (pad sp : Int) (s : GShape) :
    (GContainerBase.mk0 idv size p (some s) a f ov pad sp)._shape = s ∧
    (GContainerBase.mk0 idv size p none a f ov pad sp)._shape
        = GShape.mk "Square" 10 2 whiteColor :=
  ⟨rfl, rfl⟩

end Pysg
